import Mathlib

-- Formal model of the SWAPI serverless adapter (technical-test-smrtl).
--
-- JavaScript values are shallowly embedded as the inductive `JSValue`; JS
-- strings are lists of characters; JS objects are association lists that keep
-- insertion order, with property writes replacing an existing key in place
-- (as JS objects do).  Object-literal lookup is modelled as own-property
-- lookup on the association list.  JS numbers are modelled exactly (integers
-- inside values, rationals for the results of `Number(...)` parsing), with
-- NaN represented by `Option.none` at the points where it can arise.

namespace Smrtl

-- ## Characters and strings

-- ASCII model of String.prototype.toLowerCase / toUpperCase (all translation
-- keys and validated values in this repository are ASCII).
def jsLowerChar (c : Char) : Char :=
  if 65 ≤ c.toNat ∧ c.toNat ≤ 90 then Char.ofNat (c.toNat + 32) else c

def jsUpperChar (c : Char) : Char :=
  if 97 ≤ c.toNat ∧ c.toNat ≤ 122 then Char.ofNat (c.toNat - 32) else c

def jsToLower (s : List Char) : List Char := s.map jsLowerChar

def jsToUpper (s : List Char) : List Char := s.map jsUpperChar

-- The `\d` character class of the JS regex in `extractIdFromUrl`.
def isDigitChar (c : Char) : Bool := 48 ≤ c.toNat && c.toNat ≤ 57

-- JS whitespace (as recognised by String.prototype.trim, Number, parseInt).
def isJsWs (c : Char) : Bool :=
  (9 ≤ c.toNat && c.toNat ≤ 13) || c.toNat == 32 || c.toNat == 160 ||
  c.toNat == 8232 || c.toNat == 8233 || c.toNat == 65279

def jsTrimStart (s : List Char) : List Char := s.dropWhile isJsWs

def jsTrim (s : List Char) : List Char :=
  ((s.dropWhile isJsWs).reverse.dropWhile isJsWs).reverse

-- String.prototype.includes (substring containment).
def isPrefixB : List Char → List Char → Bool
  | [], _ => true
  | _ :: _, [] => false
  | a :: as, b :: bs => a == b && isPrefixB as bs

def containsSub (hay needle : List Char) : Bool :=
  match hay with
  | [] => isPrefixB needle []
  | _ :: rest => isPrefixB needle hay || containsSub rest needle

-- Decimal rendering of natural numbers (used for array indices and for
-- ToString of numbers).
def natDigitsAux (n : Nat) (acc : List Char) : List Char :=
  let d := Char.ofNat (48 + n % 10)
  if n < 10 then d :: acc
  else natDigitsAux (n / 10) (d :: acc)
termination_by n
decreasing_by exact Nat.div_lt_self (by omega) (by omega)

def natToString (n : Nat) : List Char := natDigitsAux n []

def intToString (i : Int) : List Char :=
  if i < 0 then '-' :: natToString i.natAbs else natToString i.natAbs

-- ## JavaScript values

inductive JSValue where
  | undef
  | null
  | bool (b : Bool)
  | num (n : Int)
  | str (s : List Char)
  | arr (elems : List JSValue)
  | obj (fields : List (List Char × JSValue))

instance : Inhabited JSValue := ⟨.undef⟩

-- A JS object: ordered own properties.
abbrev JObj := List (List Char × JSValue)

def jstr (s : String) : JSValue := .str s.data

def truthy : JSValue → Bool
  | .undef => false
  | .null => false
  | .bool b => b
  | .num n => n != 0
  | .str s => !s.isEmpty
  | .arr _ => true
  | .obj _ => true

def isStrB : JSValue → Bool
  | .str _ => true
  | _ => false

def isArrB : JSValue → Bool
  | .arr _ => true
  | _ => false

def isUndefB : JSValue → Bool
  | .undef => true
  | _ => false

-- Property read `o[k]` (absent keys read as undefined).
def getField (fields : JObj) (k : List Char) : JSValue :=
  match fields with
  | [] => .undef
  | (k0, v) :: rest => if k0 = k then v else getField rest k

-- Property write `o[k] = v`: overwrites in place, else appends (JS keeps the
-- original insertion position of an overwritten key).
def setField (fields : JObj) (k : List Char) (v : JSValue) : JObj :=
  match fields with
  | [] => [(k, v)]
  | (k0, v0) :: rest => if k0 = k then (k0, v) :: rest else (k0, v0) :: setField rest k v

def keysOf (fields : JObj) : List (List Char) := fields.map Prod.fst

def numFields : JSValue → Nat
  | .obj fields => fields.length
  | _ => 0

-- ## Translator (src/utils/mapper.js)

def PERSONAJE_FIELD_MAP : List (List Char × List Char) :=
  [ ("name".data, "nombre".data),
    ("height".data, "altura".data),
    ("mass".data, "masa".data),
    ("hair_color".data, "color_de_cabello".data),
    ("skin_color".data, "color_de_piel".data),
    ("eye_color".data, "color_de_ojos".data),
    ("birth_year".data, "año_de_nacimiento".data),
    ("gender".data, "genero".data),
    ("homeworld".data, "planeta_natal".data),
    ("films".data, "peliculas".data),
    ("species".data, "especies".data),
    ("vehicles".data, "vehiculos".data),
    ("starships".data, "naves_espaciales".data),
    ("created".data, "creado".data),
    ("edited".data, "editado".data),
    ("url".data, "url".data) ]

def VALUE_TRANSLATIONS : List (List Char × List Char) :=
  [ ("male".data, "masculino".data),
    ("female".data, "femenino".data),
    ("n/a".data, "n/a".data),
    ("none".data, "ninguno".data),
    ("hermaphrodite".data, "hermafrodita".data),
    ("blue".data, "azul".data),
    ("blond".data, "rubio (testt)".data),
    ("unknown".data, "desconocido".data) ]

def lookupStr (m : List (List Char × List Char)) (k : List Char) : Option (List Char) :=
  match m with
  | [] => none
  | (a, b) :: rest => if a = k then some b else lookupStr rest k

-- `PERSONAJE_FIELD_MAP[fieldName] || fieldName` (every mapped name is a
-- non-empty, hence truthy, string).
def translateFieldName (fieldName : List Char) : List Char :=
  match lookupStr PERSONAJE_FIELD_MAP fieldName with
  | some t => t
  | none => fieldName

-- `VALUE_TRANSLATIONS[value.toLowerCase()] || value` on strings (every mapped
-- translation is a non-empty, hence truthy, string); other values unchanged.
def translateValue (v : JSValue) : JSValue :=
  match v with
  | .str s =>
    match lookupStr VALUE_TRANSLATIONS (jsToLower s) with
    | some t => .str t
    | none => .str s
  | _ => v

-- One loop iteration of mapPersonajeToEspanol: arrays map element-wise.
def translateEntryValue (v : JSValue) : JSValue :=
  match v with
  | .arr xs => .arr (xs.map translateValue)
  | _ => translateValue v

def insertEntries (acc : JObj) : List (List Char × JSValue) → JObj
  | [] => acc
  | (k, v) :: rest => insertEntries (setField acc (translateFieldName k) (translateEntryValue v)) rest

-- Object.entries of an array: index/value pairs.
def arrayEntries (xs : List JSValue) : List (List Char × JSValue) :=
  xs.enum.map (fun e => (natToString e.1, e.2))

-- `if (!personajeEnIngles || typeof personajeEnIngles !== "object") return null`
-- then a fresh object built by iterating Object.entries (arrays are objects
-- for typeof and pass the guard).
def mapPersonajeToEspanol (v : JSValue) : JSValue :=
  match v with
  | .obj fields => .obj (insertEntries [] fields)
  | .arr xs => .obj (insertEntries [] (arrayEntries xs))
  | _ => .null

-- ## extractIdFromUrl: the regex /\/(\d+)\/?$/
-- Walks the reversed string: collects the digit run at the end (after
-- stripping at most one trailing slash) and requires a '/' right before it.
def revCollect : List Char → List Char → Option (List Char)
  | [], _ => none
  | c :: rest, acc =>
    if c = '/' then (if acc = [] then none else some acc)
    else if isDigitChar c then revCollect rest (c :: acc)
    else none

def matchTrailingId (s : List Char) : Option (List Char) :=
  match s.reverse with
  | '/' :: rest => revCollect rest []
  | r => revCollect r []

-- `!url || typeof url !== "string"` returns null; else the regex match.
def extractIdFromUrl : JSValue → Option (List Char)
  | .str [] => none
  | .str s => matchTrailingId s
  | _ => none

-- ## Number coercions (Number, isNaN, parseInt)

-- Extended JS number values for `Number(...)` results; NaN is `Option.none`
-- one level up.
inductive JNum where
  | fin (q : ℚ)
  | posInf
  | negInf

def digitsVal (ds : List Char) : Nat :=
  ds.foldl (fun a c => a * 10 + (c.toNat - 48)) 0

def isHexDigit (c : Char) : Bool :=
  (48 ≤ c.toNat && c.toNat ≤ 57) || (97 ≤ c.toNat && c.toNat ≤ 102) ||
  (65 ≤ c.toNat && c.toNat ≤ 70)

def hexDigitVal (c : Char) : Nat :=
  if 48 ≤ c.toNat && c.toNat ≤ 57 then c.toNat - 48
  else if 97 ≤ c.toNat && c.toNat ≤ 102 then c.toNat - 87
  else c.toNat - 55

def hexVal (ds : List Char) : Nat :=
  ds.foldl (fun a c => a * 16 + hexDigitVal c) 0

-- Exponent part of a numeric literal: empty, or e/E with optional sign and
-- at least one digit, consuming the rest of the string.
def parseExpPart : List Char → Option Int
  | [] => some 0
  | c :: rest =>
    if c = 'e' ∨ c = 'E' then
      match rest with
      | '+' :: ds => if ds ≠ [] ∧ ds.all isDigitChar then some (digitsVal ds) else none
      | '-' :: ds => if ds ≠ [] ∧ ds.all isDigitChar then some (-(digitsVal ds : Int)) else none
      | ds => if ds ≠ [] ∧ ds.all isDigitChar then some (digitsVal ds) else none
    else none

-- StrDecimalLiteral: digits [. digits] [exp] | . digits [exp].
def parseDecimal (s : List Char) : Option ℚ :=
  let ip := s.takeWhile isDigitChar
  let r1 := s.dropWhile isDigitChar
  match r1 with
  | '.' :: r2 =>
    let fp := r2.takeWhile isDigitChar
    let r3 := r2.dropWhile isDigitChar
    if ip = [] ∧ fp = [] then none
    else
      match parseExpPart r3 with
      | some e => some (((digitsVal ip : ℚ) + (digitsVal fp : ℚ) / (10 : ℚ) ^ fp.length) * (10 : ℚ) ^ e)
      | none => none
  | _ =>
    if ip = [] then none
    else
      match parseExpPart r1 with
      | some e => some ((digitsVal ip : ℚ) * (10 : ℚ) ^ e)
      | none => none

def parseSignedDecimal (s : List Char) (neg : Bool) : Option JNum :=
  if s = "Infinity".data then some (if neg then .negInf else .posInf)
  else
    match parseDecimal s with
    | some q => some (.fin (if neg then -q else q))
    | none => none

def parseRadixRest (s : List Char) (digitOk : Char → Bool) (base : Nat) : Option JNum :=
  if s ≠ [] ∧ s.all digitOk then
    some (.fin ((s.foldl (fun a c => a * base + hexDigitVal c) 0 : Nat) : ℚ))
  else none

def isOctDigit (c : Char) : Bool := 48 ≤ c.toNat && c.toNat ≤ 55

def isBinDigit (c : Char) : Bool := c.toNat == 48 || c.toNat == 49

-- ToNumber applied to a string: trimmed; empty is 0; signed decimal literal
-- or Infinity; unsigned 0x/0o/0b radix literal; anything else is NaN.
def strToNumber (s : List Char) : Option JNum :=
  let t := jsTrim s
  match t with
  | [] => some (.fin 0)
  | '+' :: r => parseSignedDecimal r false
  | '-' :: r => parseSignedDecimal r true
  | '0' :: 'x' :: r => parseRadixRest r isHexDigit 16
  | '0' :: 'X' :: r => parseRadixRest r isHexDigit 16
  | '0' :: 'o' :: r => parseRadixRest r isOctDigit 8
  | '0' :: 'O' :: r => parseRadixRest r isOctDigit 8
  | '0' :: 'b' :: r => parseRadixRest r isBinDigit 2
  | '0' :: 'B' :: r => parseRadixRest r isBinDigit 2
  | r => parseSignedDecimal r false

-- ToString of a value, as used by Array.prototype.join and by coercing
-- arguments of parseInt.  Inside a join, null and undefined print as "".
mutual
def jsToDisplayString : JSValue → List Char
  | .undef => "undefined".data
  | .null => "null".data
  | .bool b => if b then "true".data else "false".data
  | .num n => intToString n
  | .str s => s
  | .arr xs => joinComma xs
  | .obj _ => "[object Object]".data

def joinComma : List JSValue → List Char
  | [] => []
  | [x] => joinElem x
  | x :: y :: rest => joinElem x ++ ',' :: joinComma (y :: rest)

def joinElem : JSValue → List Char
  | .undef => []
  | .null => []
  | v => jsToDisplayString v
end

-- ToNumber of a value: objects stringify to "[object Object]" which is NaN;
-- arrays go through their join string.
def jsValueToNumber : JSValue → Option JNum
  | .num n => some (.fin (n : ℚ))
  | .bool b => some (.fin (if b then 1 else 0))
  | .null => some (.fin 0)
  | .undef => none
  | .str s => strToNumber s
  | .arr xs => strToNumber (jsToDisplayString (.arr xs))
  | .obj _ => none

-- The global isNaN: true when ToNumber gives NaN.
def jsIsNaNValue (v : JSValue) : Bool := (jsValueToNumber v).isNone

def jsIsNaNStr (s : List Char) : Bool := (strToNumber s).isNone

-- parseInt(s, 10): skip leading whitespace, optional sign, then the longest
-- leading run of decimal digits; NaN when that run is empty.
def parseIntDigits (s : List Char) (neg : Bool) : Option Int :=
  let ds := s.takeWhile isDigitChar
  if ds = [] then none
  else some (if neg then -(digitsVal ds : Int) else (digitsVal ds : Int))

def jsParseIntDec (s : List Char) : Option Int :=
  match jsTrimStart s with
  | '+' :: r => parseIntDigits r false
  | '-' :: r => parseIntDigits r true
  | r => parseIntDigits r false

-- parseInt(s) with no radix: as above, but a 0x/0X prefix switches to hex.
def parseIntAutoDigits (s : List Char) (neg : Bool) : Option Int :=
  match s with
  | '0' :: 'x' :: r =>
    let ds := r.takeWhile isHexDigit
    if ds = [] then none else some (if neg then -(hexVal ds : Int) else (hexVal ds : Int))
  | '0' :: 'X' :: r =>
    let ds := r.takeWhile isHexDigit
    if ds = [] then none else some (if neg then -(hexVal ds : Int) else (hexVal ds : Int))
  | _ => parseIntDigits s neg

def jsParseIntAuto (s : List Char) : Option Int :=
  match jsTrimStart s with
  | '+' :: r => parseIntAutoDigits r false
  | '-' :: r => parseIntAutoDigits r true
  | r => parseIntAutoDigits r false

-- parseInt applied to an arbitrary value coerces it with ToString first
-- (ToString of a string is the string itself).
def jsParseIntDecValue (v : JSValue) : Option Int :=
  match v with
  | .str s => jsParseIntDec s
  | v => jsParseIntDec (jsToDisplayString v)

def jsParseIntAutoValue (v : JSValue) : Option Int :=
  match v with
  | .str s => jsParseIntAuto s
  | v => jsParseIntAuto (jsToDisplayString v)

-- `x <= 0` on a possibly-NaN number (NaN comparisons are false).
def leZero : Option Int → Bool
  | none => false
  | some v => v ≤ 0

-- ## HTTP responses
-- buildResponse: constant CORS headers are not modelled; the JSON body is
-- kept as an ordered object rather than a serialized string.

structure HttpResponse where
  statusCode : Nat
  body : JObj

-- ## Create handler (src/handlers/crearEntidad.js)

-- The raw event body: absent/empty, not valid JSON, or parsed to a value.
inductive BodyInput where
  | missing
  | unparsable
  | parsed (v : JSValue)

def validarCuerpoRequest : BodyInput → Except (List Char) JObj
  | .missing => .error "El cuerpo de la petición está vacío".data
  | .unparsable => .error "El cuerpo de la petición no es un JSON válido".data
  | .parsed v =>
    match v with
    | .obj fields => .ok fields
    | _ => .error "El cuerpo debe ser un objeto JSON válido".data

def strTrimEmpty : JSValue → Bool
  | .str s => jsTrim s = []
  | _ => false

-- Returns the camposFaltantes list; valid iff it is empty.
def validarCamposObligatorios (personaje : JObj) : List (List Char) :=
  ["nombre".data].foldl
    (fun acc campo =>
      let v := getField personaje campo
      if !truthy v || !isStrB v || strTrimEmpty v then acc ++ [campo] else acc)
    []

def camposString : List (List Char) :=
  ["nombre".data, "altura".data, "masa".data, "color_de_cabello".data,
   "color_de_piel".data, "color_de_ojos".data, "año_de_nacimiento".data,
   "genero".data, "planeta_natal".data]

def camposArray : List (List Char) :=
  ["peliculas".data, "especies".data, "vehiculos".data, "naves_espaciales".data]

def strFieldMsg (campo : List Char) : List Char :=
  "El campo \"".data ++ campo ++ "\" debe ser una cadena de texto".data

def arrFieldMsg (campo : List Char) : List Char :=
  "El campo \"".data ++ campo ++ "\" debe ser un array".data

def generosValidos : List (List Char) :=
  ["masculino".data, "femenino".data, "hermafrodita".data, "n/a".data, "desconocido".data]

def generoMsg : List Char :=
  "El campo \"genero\" debe ser uno de: masculino, femenino, hermafrodita, n/a, desconocido".data

-- The TypeError thrown by `personaje.genero.toLowerCase()` when genero is a
-- truthy non-string.
def toLowerCaseTypeError : List Char :=
  "personaje.genero.toLowerCase is not a function".data

-- Collects the type-validation messages in program order; `.error` models the
-- TypeError escaping the function (discarding messages collected so far).
def validarTiposDeDatos (personaje : JObj) : Except (List Char) (List (List Char)) :=
  let e1 := camposString.foldl
    (fun acc campo =>
      let v := getField personaje campo
      if !isUndefB v && !isStrB v then acc ++ [strFieldMsg campo] else acc)
    []
  let e2 := camposArray.foldl
    (fun acc campo =>
      let v := getField personaje campo
      if !isUndefB v && !isArrB v then acc ++ [arrFieldMsg campo] else acc)
    e1
  let altura := getField personaje "altura".data
  let e3 := if truthy altura && jsIsNaNValue altura
    then e2 ++ ["El campo \"altura\" debe contener un valor numérico".data] else e2
  let masa := getField personaje "masa".data
  let e4 := if truthy masa && jsIsNaNValue masa
    then e3 ++ ["El campo \"masa\" debe contener un valor numérico".data] else e3
  let genero := getField personaje "genero".data
  if truthy genero then
    match genero with
    | .str s =>
      .ok (if generosValidos.contains (jsToLower s) then e4 else e4 ++ [generoMsg])
    | _ => .error toLowerCaseTypeError
  else .ok e4

-- Spread copy, trim every string field in place, lower-case genero (a
-- TypeError escapes when genero is a truthy non-string), default the four
-- array fields when falsy.
def sanitizarPersonaje (personaje : JObj) : Except (List Char) JObj :=
  let trimmed := personaje.map
    (fun e => match e.2 with
      | .str s => (e.1, JSValue.str (jsTrim s))
      | _ => e)
  let genero := getField trimmed "genero".data
  let afterGenero : Except (List Char) JObj :=
    if truthy genero then
      match genero with
      | .str s => .ok (setField trimmed "genero".data (.str (jsToLower s)))
      | _ => .error toLowerCaseTypeError
    else .ok trimmed
  match afterGenero with
  | .error m => .error m
  | .ok q =>
    .ok (camposArray.foldl
      (fun acc campo =>
        if !truthy (getField acc campo) then setField acc campo (.arr []) else acc)
      q)

structure CrearOutcome where
  resp : HttpResponse
  -- The record handed to guardarPersonaje, when the call was reached.
  guardado : Option JObj

-- The catch block of the create handler; `m` is the message of the thrown
-- error, `dev` is NODE_ENV === 'development'.
def catchCrear (m : List Char) (dev : Bool) (g : Option JObj) : CrearOutcome :=
  if containsSub m "Ya existe".data then
    ⟨⟨409, [("error".data, jstr "Conflict"), ("mensaje".data, .str m)]⟩, g⟩
  else
    ⟨⟨500, [("error".data, jstr "Internal Server Error"),
            ("mensaje".data, jstr "Ocurrió un error al crear el personaje"),
            ("detalles".data, .str (if dev then m else "Error interno del servidor".data))]⟩, g⟩

def ejemploPersonaje : JSValue :=
  .obj [("nombre".data, jstr "Obi-Wan Kenobi"), ("altura".data, jstr "182"),
        ("masa".data, jstr "77"), ("color_de_cabello".data, jstr "castaño"),
        ("color_de_ojos".data, jstr "azul"), ("genero".data, jstr "masculino")]

-- POST /personajes.  `uuid` is the freshly minted uuidv4(), `now` the
-- ISO timestamp of `new Date()`. `saveErr` models guardarPersonaje throwing
-- (with its already-wrapped message); `none` means the save succeeds and
-- returns its argument.
def crearEntidadHandler (b : BodyInput) (uuid now : List Char)
    (saveErr : Option (List Char)) (dev : Bool) : CrearOutcome :=
  match validarCuerpoRequest b with
  | .error m =>
    ⟨⟨400, [("error".data, jstr "Bad Request"), ("mensaje".data, .str m)]⟩, none⟩
  | .ok datos =>
    let faltantes := validarCamposObligatorios datos
    if faltantes ≠ [] then
      ⟨⟨400, [("error".data, jstr "Bad Request"),
              ("mensaje".data, jstr "Faltan campos obligatorios o están vacíos"),
              ("camposFaltantes".data, .arr (faltantes.map .str)),
              ("ejemplo".data, ejemploPersonaje)]⟩, none⟩
    else
      match validarTiposDeDatos datos with
      | .error exn => catchCrear exn dev none
      | .ok errs =>
        if errs ≠ [] then
          ⟨⟨400, [("error".data, jstr "Bad Request"),
                  ("mensaje".data, jstr "Errores de validación en los datos proporcionados"),
                  ("errores".data, .arr (errs.map .str))]⟩, none⟩
        else
          match sanitizarPersonaje datos with
          | .error exn => catchCrear exn dev none
          | .ok san =>
            let record :=
              setField (setField (setField san "id".data (.str uuid))
                "creado".data (.str now)) "actualizado".data (.str now)
            match saveErr with
            | some m => catchCrear m dev (some record)
            | none =>
              ⟨⟨201, [("exito".data, .bool true),
                      ("mensaje".data, jstr "Personaje creado exitosamente"),
                      ("datos".data, .obj record)]⟩, some record⟩

-- ## DynamoDB read service (src/services/dynamoDBService.js)

-- Outcome of `dynamoDB.get(...).promise()`: an optional Item, or a thrown
-- error with a message.  `tableSet` is whether PERSONAJES_TABLE is set.
-- The catch block wraps every failure message, including the service's own
-- missing-configuration throw, with "Error al consultar DynamoDB: ".
def obtenerPersonajePorId (tableSet : Bool)
    (dyn : Except (List Char) (Option JObj)) : Except (List Char) (Option JObj) :=
  let inner : Except (List Char) (Option JObj) :=
    if tableSet then dyn
    else .error "La variable de entorno PERSONAJES_TABLE no está configurada".data
  match inner with
  | .ok r => .ok r
  | .error m => .error ("Error al consultar DynamoDB: ".data ++ m)

-- ## Get-local handler (src/handlers/obtenerPersonaje.js)

-- Error classification shared by the two DynamoDB-backed handlers: first
-- matching branch wins.
def classifyStoreError (m : List Char) (dev : Bool) : HttpResponse :=
  if containsSub m "DynamoDB".data then
    ⟨503, [("error".data, jstr "Service Unavailable"),
           ("mensaje".data, jstr "No se pudo acceder a la base de datos"),
           ("detalles".data, jstr "Error al consultar DynamoDB")]⟩
  else if containsSub m "variable de entorno".data then
    ⟨500, [("error".data, jstr "Internal Server Error"),
           ("mensaje".data, jstr "Error de configuración del servidor"),
           ("detalles".data, .str (if dev then m else "Configuración incompleta".data))]⟩
  else
    ⟨500, [("error".data, jstr "Internal Server Error"),
           ("mensaje".data, jstr "Ocurrió un error al procesar la solicitud"),
           ("detalles".data, .str (if dev then m else "Error interno del servidor".data))]⟩

-- GET /personajes/{id}.
def obtenerPersonajeHandler (pathParams : Option JObj) (tableSet : Bool)
    (dyn : Except (List Char) (Option JObj)) (dev : Bool) : HttpResponse :=
  let id := getField (pathParams.getD []) "id".data
  if !truthy id then
    ⟨400, [("error".data, jstr "Bad Request"),
           ("mensaje".data, jstr "El ID del personaje es requerido"),
           ("detalles".data, jstr "Debe proporcionar un ID válido en la ruta: /personajes/{id}")]⟩
  else if !isStrB id || strTrimEmpty id then
    ⟨400, [("error".data, jstr "Bad Request"),
           ("mensaje".data, jstr "El ID del personaje debe ser una cadena válida"),
           ("idRecibido".data, id)]⟩
  else
    match obtenerPersonajePorId tableSet dyn with
    | .error m => classifyStoreError m dev
    | .ok none =>
      ⟨404, [("error".data, jstr "Not Found"),
             ("mensaje".data, .str ("No se encontró el personaje con ID ".data ++ jsToDisplayString id)),
             ("idBuscado".data, id),
             ("sugerencia".data, jstr "Verifique que el ID sea correcto o cree un nuevo personaje usando POST /personajes")]⟩
    | .ok (some p) =>
      ⟨200, [("exito".data, .bool true),
             ("mensaje".data, jstr "Personaje obtenido exitosamente"),
             ("datos".data, .obj p)]⟩

-- ## List handler (src/handlers/listarPersonajes.js)

-- `parseInt(queryParams.limite || queryParams.limit || '50', 10)`, then the
-- invalid/default check and the 100 cap.
def jsOr (a b : JSValue) : JSValue := if truthy a then a else b

def resolveLimite (qp : Option JObj) : Int :=
  let qpo := qp.getD []
  let raw := jsOr (getField qpo "limite".data) (jsOr (getField qpo "limit".data) (jstr "50"))
  let parsed := jsParseIntDecValue raw
  let limite1 : Int :=
    match parsed with
    | none => 50
    | some v => if v ≤ 0 then 50 else v
  if limite1 > 100 then 100 else limite1

-- Array.prototype.sort with the creado comparator, modelled as a stable
-- insertion sort; `dateParse` stands for the `new Date(x)` numeric value.
def creadoCmp (dateParse : JSValue → Int) (a b : JObj) : Int :=
  if !truthy (getField a "creado".data) || !truthy (getField b "creado".data) then 0
  else dateParse (getField b "creado".data) - dateParse (getField a "creado".data)

def insertByCmp (cmp : JObj → JObj → Int) (x : JObj) : List JObj → List JObj
  | [] => [x]
  | y :: ys => if cmp x y < 0 then x :: y :: ys else y :: insertByCmp cmp x ys

def sortByCmp (cmp : JObj → JObj → Int) (l : List JObj) : List JObj :=
  l.foldl (fun acc x => insertByCmp cmp x acc) []

-- GET /personajes.  `store` is listarPersonajes applied to the resolved
-- limit: a list of records, or a thrown error message (already wrapped by
-- the service's catch block).
def listarPersonajesHandler (qp : Option JObj)
    (store : Int → Except (List Char) (List JObj))
    (dateParse : JSValue → Int) (dev : Bool) : HttpResponse :=
  let limite := resolveLimite qp
  match store limite with
  | .error m => classifyStoreError m dev
  | .ok personajes =>
    if personajes.length = 0 then
      ⟨200, [("exito".data, .bool true),
             ("mensaje".data, jstr "No hay personajes almacenados"),
             ("total".data, .num 0),
             ("datos".data, .arr [])]⟩
    else
      let ordenados := sortByCmp (creadoCmp dateParse) personajes
      ⟨200, [("exito".data, .bool true),
             ("mensaje".data, jstr "Personajes obtenidos exitosamente"),
             ("total".data, .num ordenados.length),
             ("limite".data, .num limite),
             ("datos".data, .arr (ordenados.map .obj))]⟩

-- ## Get-external handler (src/handlers/getPersonaje.js, SWAPI)

structure SwapiOutcome where
  resp : HttpResponse
  -- Whether getPersonajeById (the SWAPI client) was invoked.
  clientCalled : Bool

-- GET /personajes/swapi/{id}.  `client` is the outcome of getPersonajeById:
-- a translated record, absence, or a thrown error message.
def getPersonajeSwapiHandler (pathParams : Option JObj)
    (client : Except (List Char) (Option JObj)) (dev : Bool) : SwapiOutcome :=
  let id := getField (pathParams.getD []) "id".data
  if !truthy id then
    ⟨⟨400, [("error".data, jstr "Bad Request"),
            ("mensaje".data, jstr "El ID del personaje es requerido"),
            ("detalles".data, jstr "Debe proporcionar un ID válido en la ruta: /personajes/swapi/{id}")]⟩, false⟩
  else if jsIsNaNValue id || leZero (jsParseIntAutoValue id) then
    ⟨⟨400, [("error".data, jstr "Bad Request"),
            ("mensaje".data, jstr "El ID del personaje debe ser un número positivo"),
            ("idRecibido".data, id)]⟩, false⟩
  else
    match client with
    | .ok none =>
      ⟨⟨404, [("error".data, jstr "Not Found"),
              ("mensaje".data, .str ("No se encontró el personaje con ID ".data ++ jsToDisplayString id ++ " en SWAPI".data)),
              ("idBuscado".data, id)]⟩, true⟩
    | .ok (some p) =>
      ⟨⟨200, [("exito".data, .bool true),
              ("mensaje".data, jstr "Personaje obtenido exitosamente desde SWAPI"),
              ("datos".data, .obj p)]⟩, true⟩
    | .error m =>
      if containsSub m "no encontrado".data then
        ⟨⟨404, [("error".data, jstr "Not Found"), ("mensaje".data, .str m),
                ("idBuscado".data, id)]⟩, true⟩
      else if containsSub m "conectar".data then
        ⟨⟨503, [("error".data, jstr "Service Unavailable"),
                ("mensaje".data, jstr "No se pudo conectar con el servicio de Star Wars"),
                ("detalles".data, .str m)]⟩, true⟩
      else
        ⟨⟨500, [("error".data, jstr "Internal Server Error"),
                ("mensaje".data, jstr "Ocurrió un error al procesar la solicitud"),
                ("detalles".data, .str (if dev then m else "Error interno del servidor".data))]⟩, true⟩

-- ## Helper lemmas

theorem toNat_charOfNat_of_lt (n : Nat) (h : n < 55296) : (Char.ofNat n).toNat = n := by
  have hv : n.isValidChar := Or.inl h
  simp [Char.ofNat, hv, Char.ofNatAux, Char.toNat, UInt32.toNat]

theorem jsLowerChar_jsUpperChar (c : Char) : jsLowerChar (jsUpperChar c) = jsLowerChar c := by
  unfold jsUpperChar
  by_cases h : 97 ≤ c.toNat ∧ c.toNat ≤ 122
  · rw [if_pos h]
    have h1 : (Char.ofNat (c.toNat - 32)).toNat = c.toNat - 32 :=
      toNat_charOfNat_of_lt _ (by omega)
    unfold jsLowerChar
    rw [h1, if_pos (by omega : 65 ≤ c.toNat - 32 ∧ c.toNat - 32 ≤ 90),
      (by omega : c.toNat - 32 + 32 = c.toNat), Char.ofNat_toNat,
      if_neg (by omega : ¬(65 ≤ c.toNat ∧ c.toNat ≤ 90))]
  · rw [if_neg h]

theorem jsToLower_jsToUpper (s : List Char) : jsToLower (jsToUpper s) = jsToLower s := by
  induction s with
  | nil => rfl
  | cons c t ih =>
    simp only [jsToLower, jsToUpper, List.map_cons] at ih ⊢
    rw [jsLowerChar_jsUpperChar, ih]

theorem getField_setField_same (m : JObj) (k : List Char) (v : JSValue) :
    getField (setField m k v) k = v := by
  induction m with
  | nil => simp [setField, getField]
  | cons e rest ih =>
    obtain ⟨k0, v0⟩ := e
    by_cases h : k0 = k
    · simp [setField, getField, h]
    · simp [setField, getField, h, ih]

theorem getField_setField_ne (m : JObj) (k k' : List Char) (v : JSValue) (h : ¬k = k') :
    getField (setField m k v) k' = getField m k' := by
  induction m with
  | nil => simp [setField, getField, h]
  | cons e rest ih =>
    obtain ⟨k0, v0⟩ := e
    by_cases h0 : k0 = k
    · subst h0
      simp [setField, getField, h]
    · simp only [setField, if_neg h0]
      by_cases h1 : k0 = k'
      · simp [getField, h1]
      · simp [getField, h1, ih]

theorem setField_eq_append (m : JObj) (k : List Char) (v : JSValue)
    (h : ¬k ∈ keysOf m) : setField m k v = m ++ [(k, v)] := by
  induction m with
  | nil => rfl
  | cons e rest ih =>
    obtain ⟨k0, v0⟩ := e
    simp only [keysOf, List.map_cons, List.mem_cons] at h
    push_neg at h
    have hne : ¬k0 = k := fun he => h.1 (Eq.symm he)
    simp only [setField, if_neg hne, List.cons_append]
    rw [ih (by simpa [keysOf] using h.2)]

theorem insertEntries_eq_append (entries : List (List Char × JSValue)) :
    ∀ acc : JObj,
      List.Pairwise (fun a b => ¬a = b) (entries.map (fun e => translateFieldName e.1)) →
      (∀ e ∈ entries, ¬translateFieldName e.1 ∈ keysOf acc) →
      insertEntries acc entries
        = acc ++ entries.map (fun e => (translateFieldName e.1, translateEntryValue e.2)) := by
  induction entries with
  | nil => intro acc _ _; simp [insertEntries]
  | cons e rest ih =>
    intro acc hpw hacc
    obtain ⟨k, v⟩ := e
    simp only [List.map_cons, List.pairwise_cons] at hpw
    simp only [insertEntries]
    rw [setField_eq_append acc _ _ (hacc (k, v) (List.mem_cons_self _ _))]
    rw [ih (acc ++ [(translateFieldName k, translateEntryValue v)]) hpw.2 ?_]
    · simp
    · intro e he
      have h1 := hpw.1 (translateFieldName e.1) (List.mem_map_of_mem _ he)
      have h2 := hacc e (List.mem_cons_of_mem _ he)
      simp only [keysOf, List.map_append, List.mem_append]
      rintro (hmem | hmem)
      · exact h2 (by simpa [keysOf] using hmem)
      · simp at hmem
        exact h1 hmem.symm

-- ## Spec-side predicate for extractIdFromUrl
-- Rendering of the spec sentence: the input is a string ending in /<digits>
-- or /<digits>/, and the result is that digit sequence.
def SpecTrailingId (s d : List Char) : Prop :=
  ¬d = [] ∧ (∀ c ∈ d, isDigitChar c = true) ∧
  ∃ p : List Char, s = p ++ '/' :: d ∨ s = p ++ '/' :: d ++ ['/']

theorem digit_not_slash {c : Char} (h : isDigitChar c = true) : ¬c = '/' := by
  intro he
  subst he
  exact absurd h (by decide)

theorem revCollect_eq (r : List Char) : ∀ acc d, revCollect r acc = some d ↔
    ∃ ds rest, r = ds ++ '/' :: rest ∧ (∀ c ∈ ds, isDigitChar c = true) ∧
      d = ds.reverse ++ acc ∧ ¬d = [] := by
  induction r with
  | nil =>
    intro acc d
    constructor
    · intro h; simp [revCollect] at h
    · rintro ⟨ds, rest, h, -⟩
      exact absurd h (by simp)
  | cons c r ih =>
    intro acc d
    by_cases hc : c = '/'
    · subst hc
      have hrc : revCollect ('/' :: r) acc = if acc = [] then none else some acc := by
        simp [revCollect]
      rw [hrc]
      constructor
      · intro h
        by_cases ha : acc = []
        · rw [if_pos ha] at h; cases h
        · rw [if_neg ha] at h
          refine ⟨[], r, rfl, by simp, ?_, ?_⟩
          · simpa using (Option.some_injective _ h).symm
          · intro hd
            apply ha
            have := (Option.some_injective _ h)
            rw [← this] at hd
            exact hd
      · rintro ⟨ds, rest, heq, hdig, hd, hne⟩
        match ds, heq with
        | [], heq =>
          have hr : r = rest := by simpa using heq
          have : d = acc := by simpa using hd
          subst this
          rw [if_neg hne]
        | c' :: ds', heq =>
          have : c' = '/' := by
            have := congrArg (fun l => l.head?) heq
            simpa using this.symm
          exact absurd this (digit_not_slash (hdig c' (by simp)))
    · by_cases hdgt : isDigitChar c = true
      · simp only [revCollect, if_neg hc, if_pos hdgt]
        rw [ih (c :: acc) d]
        constructor
        · rintro ⟨ds, rest, heq, hdig, hd, hne⟩
          refine ⟨c :: ds, rest, by simp [heq], ?_, ?_, hne⟩
          · intro x hx
            rcases List.mem_cons.mp hx with h | h
            · subst h; exact hdgt
            · exact hdig x h
          · rw [hd]; simp
        · rintro ⟨ds, rest, heq, hdig, hd, hne⟩
          match ds, heq with
          | [], heq =>
            exact absurd (by simpa using congrArg (fun l => l.head?) heq) hc
          | c' :: ds', heq =>
            have hcc : c = c' := by simpa using congrArg (fun l => l.head?) heq
            subst hcc
            have hr : r = ds' ++ '/' :: rest := by simpa using heq
            refine ⟨ds', rest, hr, fun x hx => hdig x (List.mem_cons_of_mem _ hx), ?_, hne⟩
            rw [hd]; simp
      · simp only [revCollect, if_neg hc, if_neg hdgt]
        constructor
        · intro h; cases h
        · rintro ⟨ds, rest, heq, hdig, hd, hne⟩
          match ds, heq with
          | [], heq =>
            exact absurd (by simpa using congrArg (fun l => l.head?) heq) hc
          | c' :: ds', heq =>
            have hcc : c = c' := by simpa using congrArg (fun l => l.head?) heq
            subst hcc
            exact absurd (hdig c (by simp)) hdgt

theorem matchTrailingId_eq (s d : List Char) :
    matchTrailingId s = some d ↔ SpecTrailingId s d := by
  rcases hrev : s.reverse with - | ⟨c, rest⟩
  · have hs : s = [] := by simpa using congrArg List.reverse hrev
    subst hs
    constructor
    · intro h; simp [matchTrailingId, revCollect] at h
    · rintro ⟨hne, hdig, p, h⟩
      rcases h with h | h <;> simp at h
  · have hs : s = rest.reverse ++ [c] := by simpa using congrArg List.reverse hrev
    by_cases hc : c = '/'
    · subst hc
      have hm : matchTrailingId s = revCollect rest [] := by
        unfold matchTrailingId
        rw [hrev]
        split
        · next r2 heq2 =>
          have : rest = r2 := by simpa using congrArg List.tail heq2
          rw [this]
        · next hno => exact (hno rest rfl).elim
      rw [hm, revCollect_eq]
      constructor
      · rintro ⟨ds, rest', heq, hdig, hd, hne⟩
        refine ⟨hne, ?_, rest'.reverse, Or.inr ?_⟩
        · intro x hx
          apply hdig
          rw [hd] at hx
          simpa using hx
        · rw [hs, heq, hd]
          simp
      · rintro ⟨hne, hdig, p, h⟩
        rcases h with h | h
        · exfalso
          have hsr : d.reverse ++ '/' :: p.reverse = '/' :: rest := by
            rw [← hrev, h]; simp
          rcases hD : d.reverse with - | ⟨e, es⟩
          · exact hne (by simpa using congrArg List.reverse hD)
          · rw [hD] at hsr
            have he : e = '/' := by simpa using congrArg (fun l => l.head?) hsr
            have hmem : e ∈ d := by
              rw [← List.mem_reverse, hD]; simp
            exact digit_not_slash (hdig e hmem) he
        · have hsr : s.reverse = '/' :: (d.reverse ++ '/' :: p.reverse) := by
            rw [h]; simp
          rw [hrev] at hsr
          have hrest : rest = d.reverse ++ '/' :: p.reverse := by
            simpa using congrArg List.tail hsr
          exact ⟨d.reverse, p.reverse, hrest, by simpa using hdig, by simp, hne⟩
    · have hm : matchTrailingId s = revCollect (c :: rest) [] := by
        unfold matchTrailingId
        rw [hrev]
        split
        · next r2 heq2 =>
          exact absurd (by simpa using congrArg (fun l => l.head?) heq2) hc
        · rfl
      rw [hm, revCollect_eq]
      constructor
      · rintro ⟨ds, rest', heq, hdig, hd, hne⟩
        refine ⟨hne, ?_, rest'.reverse, Or.inl ?_⟩
        · intro x hx
          apply hdig
          rw [hd] at hx
          simpa using hx
        · have hseq : s = (ds ++ '/' :: rest').reverse := by
            rw [← heq, ← hrev, List.reverse_reverse]
          rw [hseq, hd]
          simp
      · rintro ⟨hne, hdig, p, h⟩
        rcases h with h | h
        · have hsr : d.reverse ++ '/' :: p.reverse = c :: rest := by
            rw [← hrev, h]; simp
          exact ⟨d.reverse, p.reverse, hsr.symm, by simpa using hdig, by simp, hne⟩
        · exfalso
          have hsr : s.reverse = '/' :: (d.reverse ++ '/' :: p.reverse) := by
            rw [h]; simp
          rw [hrev] at hsr
          exact hc (by simpa using congrArg (fun l => l.head?) hsr)

-- ## Claim theorems

/-- C1, counterexample: the non-null object `{name:'A', nombre:'B'}` has two own
fields, yet `mapPersonajeToEspanol` returns an object with a single field —
both input entries collapse onto the key `nombre`, so the function does not
always keep one output entry per input entry. -/
theorem claim1_counterexample :
    numFields (JSValue.obj [("name".data, jstr "A"), ("nombre".data, jstr "B")]) = 2
    ∧ mapPersonajeToEspanol (JSValue.obj [("name".data, jstr "A"), ("nombre".data, jstr "B")])
        = .obj [("nombre".data, jstr "B")]
    ∧ numFields (mapPersonajeToEspanol
        (JSValue.obj [("name".data, jstr "A"), ("nombre".data, jstr "B")])) = 1 :=
  ⟨rfl, by rfl, by rfl⟩

/-- C1, amended: whenever the translated keys of a non-null object's entries are
pairwise distinct (in particular, when no source-language key collides with a
local-language key already present), `mapPersonajeToEspanol` returns exactly
one entry per input entry — the translated-entry list itself; moreover
`translateRecord(null) = null`, and `{name:'Yoda', height:'66'}` maps to
exactly `{nombre:'Yoda', altura:'66'}`. -/
theorem claim1_entry_preservation :
    (∀ fields : JObj,
      List.Pairwise (fun a b => ¬a = b) (fields.map (fun e => translateFieldName e.1)) →
      mapPersonajeToEspanol (.obj fields)
          = .obj (fields.map (fun e => (translateFieldName e.1, translateEntryValue e.2)))
        ∧ numFields (mapPersonajeToEspanol (.obj fields)) = fields.length)
    ∧ mapPersonajeToEspanol .null = .null
    ∧ mapPersonajeToEspanol (JSValue.obj [("name".data, jstr "Yoda"), ("height".data, jstr "66")])
        = .obj [("nombre".data, jstr "Yoda"), ("altura".data, jstr "66")] := by
  refine ⟨?_, rfl, by rfl⟩
  intro fields hpw
  have h := insertEntries_eq_append fields [] hpw (by simp [keysOf])
  constructor
  · show JSValue.obj (insertEntries [] fields) = _
    rw [h]
    simp
  · show numFields (JSValue.obj (insertEntries [] fields)) = _
    rw [h]
    simp [numFields]

/-- C1, witness: the amended theorem applied to the concrete record
`{name:'Yoda', height:'66'}`, whose translated keys are distinct. -/
theorem claim1_witness :
    mapPersonajeToEspanol (JSValue.obj [("name".data, jstr "Yoda"), ("height".data, jstr "66")])
        = .obj [("nombre".data, jstr "Yoda"), ("altura".data, jstr "66")]
    ∧ numFields (mapPersonajeToEspanol
        (JSValue.obj [("name".data, jstr "Yoda"), ("height".data, jstr "66")])) = 2 :=
  ⟨((claim1_entry_preservation.1
      [("name".data, jstr "Yoda"), ("height".data, jstr "66")] (by decide)).1).trans (by rfl),
   (claim1_entry_preservation.1
      [("name".data, jstr "Yoda"), ("height".data, jstr "66")] (by decide)).2⟩

/-- C2: `translateValue` looks strings up case-insensitively — when the
lower-cased input is a known key, the input and its upper-cased form both map
to the same canonical local-language replacement; when it is not, the string
comes back exactly as received; and every non-string value is returned
unchanged. -/
theorem claim2_translateValue_case_insensitive :
    (∀ s : List Char,
       match lookupStr VALUE_TRANSLATIONS (jsToLower s) with
       | some t => translateValue (.str s) = .str t ∧ translateValue (.str (jsToUpper s)) = .str t
       | none => translateValue (.str s) = .str s)
    ∧ translateValue .null = .null
    ∧ translateValue .undef = .undef
    ∧ (∀ b, translateValue (.bool b) = .bool b)
    ∧ (∀ n, translateValue (.num n) = .num n)
    ∧ (∀ xs, translateValue (.arr xs) = .arr xs)
    ∧ (∀ fs, translateValue (.obj fs) = .obj fs) := by
  refine ⟨?_, rfl, rfl, fun b => rfl, fun n => rfl, fun xs => rfl, fun fs => rfl⟩
  intro s
  rcases hlook : lookupStr VALUE_TRANSLATIONS (jsToLower s) with - | t
  · simp [translateValue, hlook]
  · exact ⟨by simp [translateValue, hlook],
      by simp [translateValue, jsToLower_jsToUpper, hlook]⟩

/-- C7: `extractIdFromUrl` returns the trailing digit sequence exactly when the
input is a string ending in `/<digits>` or `/<digits>/` (anchored at the end,
with at most one trailing separator), and null for every non-string input and
every string of any other shape; the four spec examples evaluate as stated. -/
theorem claim7_extractIdFromUrl_correct :
    (∀ s d, extractIdFromUrl (.str s) = some d ↔ SpecTrailingId s d)
    ∧ extractIdFromUrl .null = none
    ∧ extractIdFromUrl .undef = none
    ∧ (∀ b, extractIdFromUrl (.bool b) = none)
    ∧ (∀ n, extractIdFromUrl (.num n) = none)
    ∧ (∀ xs, extractIdFromUrl (.arr xs) = none)
    ∧ (∀ fs, extractIdFromUrl (.obj fs) = none)
    ∧ extractIdFromUrl (jstr "https://host/api/people/42/") = some "42".data
    ∧ extractIdFromUrl (jstr "https://host/api/people/42") = some "42".data
    ∧ extractIdFromUrl (jstr "https://host/api/people/") = none
    ∧ extractIdFromUrl (jstr "not-a-url") = none := by
  refine ⟨?_, rfl, rfl, fun b => rfl, fun n => rfl, fun xs => rfl, fun fs => rfl,
    by rfl, by rfl, by rfl, by rfl⟩
  intro s d
  rcases s with - | ⟨a, t⟩
  · constructor
    · intro h
      exact Option.noConfusion h
    · rintro ⟨hne, hdig, p, h⟩
      rcases h with h | h <;> simp at h
  · rw [show extractIdFromUrl (.str (a :: t)) = matchTrailingId (a :: t) from rfl]
    exact matchTrailingId_eq _ d

/-- C3, code bug: a create body that passes the required-field check but
carries a truthy non-string genero (here an array) makes validarTiposDeDatos
throw on `personaje.genero.toLowerCase()` before it can return its collected
messages — the string-field violation for genero is collected and then lost —
and the handler's catch block answers 500, not the claimed 400 with the full
message list; with a string genero the stage does answer 400. -/
theorem claim3_genero_type_crash :
    validarTiposDeDatos [("nombre".data, jstr "Test"), ("genero".data, .arr [jstr "masculino"])]
        = .error toLowerCaseTypeError
    ∧ (crearEntidadHandler
        (.parsed (.obj [("nombre".data, jstr "Test"), ("genero".data, .arr [jstr "masculino"])]))
        "u".data "t".data none false).resp.statusCode = 500
    ∧ (crearEntidadHandler
        (.parsed (.obj [("nombre".data, jstr "Test"), ("genero".data, .arr [jstr "masculino"])]))
        "u".data "t".data none false).guardado = none
    ∧ (crearEntidadHandler
        (.parsed (.obj [("nombre".data, jstr "Test"), ("genero".data, jstr "invalido")]))
        "u".data "t".data none false).resp.statusCode = 400 :=
  ⟨by rfl, by rfl, by rfl, by rfl⟩

/-- C4, code bug: when PERSONAJES_TABLE is absent, obtenerPersonajePorId's own
catch block rewraps the configuration error as "Error al consultar DynamoDB:
La variable de entorno ...", whose text matches the connectivity branch first,
so the get-local handler answers 503 Service Unavailable instead of the
claimed 500 — even though the message carries the configuration marker and the
handler's dedicated 500 configuration branch would handle an unwrapped one. -/
theorem claim4_config_error_misrouted :
    obtenerPersonajePorId false (.ok none)
        = .error "Error al consultar DynamoDB: La variable de entorno PERSONAJES_TABLE no está configurada".data
    ∧ containsSub
        "Error al consultar DynamoDB: La variable de entorno PERSONAJES_TABLE no está configurada".data
        "variable de entorno".data = true
    ∧ (obtenerPersonajeHandler (some [("id".data, jstr "test-id")]) false (.ok none) false).statusCode = 503
    ∧ ¬(obtenerPersonajeHandler (some [("id".data, jstr "test-id")]) false (.ok none) false).statusCode = 500
    ∧ (classifyStoreError "La variable de entorno PERSONAJES_TABLE no está configurada".data false).statusCode = 500 :=
  ⟨by rfl, by rfl, by rfl, by decide, by rfl⟩

/-- C10: the translation vocabulary is not closed under the create handler's
gender validation — translateValue('none') is 'ninguno', yet 'ninguno' is not
among the five accepted gender values, so a create request with a valid
nombre and genero:'ninguno' is rejected by validarTiposDeDatos with the
gender message and the handler answers 400. -/
theorem claim10_gender_vocabulary_gap :
    translateValue (jstr "none") = jstr "ninguno"
    ∧ ¬"ninguno".data ∈ generosValidos
    ∧ validarTiposDeDatos [("nombre".data, jstr "Test"), ("genero".data, jstr "ninguno")]
        = .ok [generoMsg]
    ∧ (crearEntidadHandler
        (.parsed (.obj [("nombre".data, jstr "Test"), ("genero".data, jstr "ninguno")]))
        "u".data "t".data none false).resp.statusCode = 400 :=
  ⟨by rfl, by decide, by rfl, by rfl⟩

/-- C5, counterexample: with zero results the list handler still answers 200,
but its body carries only exito, mensaje, total and datos — the resolved
limit (limite) is absent, contrary to the claim that every 200 body carries
all five fields. -/
theorem claim5_counterexample :
    (listarPersonajesHandler none (fun _ => .ok []) (fun _ => 0) false).statusCode = 200
    ∧ keysOf (listarPersonajesHandler none (fun _ => .ok []) (fun _ => 0) false).body
        = ["exito".data, "mensaje".data, "total".data, "datos".data]
    ∧ getField (listarPersonajesHandler none (fun _ => .ok []) (fun _ => 0) false).body "limite".data
        = .undef :=
  ⟨by rfl, by rfl, by rfl⟩

/-- C5, amended: every successful (200) response of the list handler carries
the success flag, message, total count and (possibly empty) result sequence;
the resolved limit (limite) is additionally present exactly when at least one
record was returned — the zero-result success body omits it. -/
theorem claim5_success_body_shape :
    ∀ (qp : Option JObj) (rs : List JObj) (dp : JSValue → Int) (dev : Bool),
      (listarPersonajesHandler qp (fun _ => .ok rs) dp dev).statusCode = 200
      ∧ keysOf (listarPersonajesHandler qp (fun _ => .ok rs) dp dev).body
          = (if rs.isEmpty then ["exito".data, "mensaje".data, "total".data, "datos".data]
             else ["exito".data, "mensaje".data, "total".data, "limite".data, "datos".data]) := by
  intro qp rs dp dev
  cases rs with
  | nil => exact ⟨rfl, rfl⟩
  | cons a l => exact ⟨rfl, rfl⟩

/-- C6, counterexample: 'limite=12abc' is a non-numeric parameter value
(Number('12abc') is NaN), yet parseInt extracts the leading 12 and the
handler resolves the store bound to 12 — not to the default 50 the claim
requires for non-numeric input. -/
theorem claim6_counterexample :
    jsIsNaNStr "12abc".data = true
    ∧ resolveLimite (some [("limite".data, jstr "12abc")]) = 12
    ∧ ¬resolveLimite (some [("limite".data, jstr "12abc")]) = 50 :=
  ⟨by rfl, by rfl, by decide⟩

/-- C6, amended: the store bound is resolved from the parameter (accepted as
limite, or limit) with parseInt base 10: 50 when the parameter is absent,
when no leading decimal integer parses, or when the parse is zero or
negative; the parsed value when it lies in 1..100; and 100 when it exceeds
100 — so a numeric-prefixed value such as '12abc' queries with 12, while
limite=200 queries with 100 and limite=abc, 0 and -5 each query with 50. -/
theorem claim6_limit_resolution :
    (∀ s : List Char,
      resolveLimite (some [("limite".data, .str s)])
        = (match jsParseIntDec s with
           | none => (50 : Int)
           | some v => if v ≤ 0 then 50 else if v > 100 then 100 else v))
    ∧ (∀ s : List Char,
      resolveLimite (some [("limit".data, .str s)])
        = (match jsParseIntDec s with
           | none => (50 : Int)
           | some v => if v ≤ 0 then 50 else if v > 100 then 100 else v))
    ∧ resolveLimite none = 50
    ∧ resolveLimite (some []) = 50
    ∧ resolveLimite (some [("limite".data, jstr "200")]) = 100
    ∧ resolveLimite (some [("limite".data, jstr "abc")]) = 50
    ∧ resolveLimite (some [("limite".data, jstr "0")]) = 50
    ∧ resolveLimite (some [("limite".data, jstr "-5")]) = 50 := by
  refine ⟨?_, ?_, rfl, rfl, by rfl, by rfl, by rfl, by rfl⟩ <;>
  · intro s
    rcases s with - | ⟨c, t⟩
    · rfl
    · show (let parsed := jsParseIntDec (c :: t);
            let limite1 : Int := match parsed with
              | none => 50
              | some v => if v ≤ 0 then 50 else v;
            if limite1 > 100 then 100 else limite1) = _
      rcases hp : jsParseIntDec (c :: t) with - | v
      · simp only [hp]
        decide
      · simp only [hp]
        by_cases hv : v ≤ 0
        · simp [hv]
        · simp [hv]

/-- C8, counterexample: id '.0' is numeric (Number('.0') is 0) and not
strictly positive, yet isNaN('.0') is false and parseInt('.0') is NaN (whose
comparison with 0 is false), so the get-external handler's validation passes:
the SWAPI client is invoked and the response is 404, not a 400 without a
downstream call. -/
theorem claim8_counterexample :
    (∃ q : ℚ, strToNumber ".0".data = some (.fin q) ∧ q = 0)
    ∧ (getPersonajeSwapiHandler (some [("id".data, jstr ".0")]) (.ok none) false).clientCalled = true
    ∧ (getPersonajeSwapiHandler (some [("id".data, jstr ".0")]) (.ok none) false).resp.statusCode = 404 := by
  refine ⟨⟨_, rfl, ?_⟩, by rfl, by rfl⟩
  norm_num [digitsVal, List.foldl, show Char.toNat '0' = 48 from rfl]

/-- C8, amended: whenever the path id is a string on which the handler's
guard fires — isNaN(id) is true, or parseInt(id) produced a number that is
zero or negative — the get-external handler answers 400 and the SWAPI client
is never invoked (an absent or empty id also yields 400 without a call); in
particular 'abc', '0' and '-5' each yield 400 without a downstream call.
Ids whose Number value is non-positive but whose parseInt is NaN (such as
'.0') escape the guard and do reach the client. -/
theorem claim8_swapi_validation :
    (∀ (s : List Char) (client : Except (List Char) (Option JObj)) (dev : Bool),
      (jsIsNaNValue (.str s) = true ∨ leZero (jsParseIntAuto s) = true) →
      (getPersonajeSwapiHandler (some [("id".data, .str s)]) client dev).resp.statusCode = 400
      ∧ (getPersonajeSwapiHandler (some [("id".data, .str s)]) client dev).clientCalled = false)
    ∧ ((getPersonajeSwapiHandler (some [("id".data, jstr "abc")]) (.ok none) false).resp.statusCode = 400
      ∧ (getPersonajeSwapiHandler (some [("id".data, jstr "abc")]) (.ok none) false).clientCalled = false)
    ∧ ((getPersonajeSwapiHandler (some [("id".data, jstr "0")]) (.ok none) false).resp.statusCode = 400
      ∧ (getPersonajeSwapiHandler (some [("id".data, jstr "0")]) (.ok none) false).clientCalled = false)
    ∧ ((getPersonajeSwapiHandler (some [("id".data, jstr "-5")]) (.ok none) false).resp.statusCode = 400
      ∧ (getPersonajeSwapiHandler (some [("id".data, jstr "-5")]) (.ok none) false).clientCalled = false) := by
  refine ⟨?_, ⟨by rfl, by rfl⟩, ⟨by rfl, by rfl⟩, ⟨by rfl, by rfl⟩⟩
  intro s client dev h
  rcases s with - | ⟨c, t⟩
  · exact ⟨rfl, rfl⟩
  · have hg : (jsIsNaNValue (.str (c :: t)) || leZero (jsParseIntAutoValue (.str (c :: t)))) = true := by
      rcases h with h | h
      · rw [h]; rfl
      · have : jsParseIntAutoValue (.str (c :: t)) = jsParseIntAuto (c :: t) := rfl
        rw [this, h, Bool.or_true]
    show (if (jsIsNaNValue (.str (c :: t)) || leZero (jsParseIntAutoValue (.str (c :: t)))) then _ else _ : SwapiOutcome).resp.statusCode = 400
      ∧ (if (jsIsNaNValue (.str (c :: t)) || leZero (jsParseIntAutoValue (.str (c :: t)))) then _ else _ : SwapiOutcome).clientCalled = false
    rw [hg]
    exact ⟨rfl, rfl⟩

/-- C8, witness: the amended theorem applied to id 'abc', with isNaN('abc')
discharged by evaluation. -/
theorem claim8_witness :
    (getPersonajeSwapiHandler (some [("id".data, jstr "abc")]) (.ok (some [])) true).resp.statusCode = 400
    ∧ (getPersonajeSwapiHandler (some [("id".data, jstr "abc")]) (.ok (some [])) true).clientCalled = false :=
  claim8_swapi_validation.1 "abc".data (.ok (some [])) true (Or.inl (by rfl))

theorem catchCrear_guardado (m : List Char) (dev : Bool) (g : Option JObj) :
    (catchCrear m dev g).guardado = g := by
  unfold catchCrear
  split <;> rfl

-- Any record the create handler hands to the store is the stamped record
-- built from some sanitized object.
theorem crearEntidadHandler_guardado (b : BodyInput) (uuid now : List Char)
    (saveErr : Option (List Char)) (dev : Bool) (rec : JObj) :
    (crearEntidadHandler b uuid now saveErr dev).guardado = some rec →
    ∃ san : JObj, rec = setField (setField (setField san "id".data (.str uuid))
      "creado".data (.str now)) "actualizado".data (.str now) := by
  intro h
  unfold crearEntidadHandler at h
  rcases hb : validarCuerpoRequest b with m | datos <;> rw [hb] at h <;> simp only [] at h
  · cases h
  · by_cases hf : validarCamposObligatorios datos ≠ []
    · rw [if_pos hf] at h
      cases h
    · rw [if_neg hf] at h
      rcases ht : validarTiposDeDatos datos with exn | errs <;> rw [ht] at h <;>
        simp only [] at h
      · rw [catchCrear_guardado] at h
        cases h
      · by_cases he : errs ≠ []
        · rw [if_pos he] at h
          cases h
        · rw [if_neg he] at h
          rcases hs : sanitizarPersonaje datos with exn | san <;> rw [hs] at h <;>
            simp only [] at h
          · rw [catchCrear_guardado] at h
            cases h
          · rcases saveErr with - | m
            · simp only [] at h
              exact ⟨san, (Option.some_injective _ h).symm⟩
            · simp only [] at h
              rw [catchCrear_guardado] at h
              exact ⟨san, (Option.some_injective _ h).symm⟩

/-- C9: whatever record the create handler hands to the store (necessarily
after its validations pass), that record's id is the freshly minted UUID and
its creado and actualizado fields are both the freshly stamped timestamp —
any client-supplied id, creado or actualizado value is overwritten. -/
theorem claim9_identity_overwritten :
    ∀ (datos : JObj) (uuid now : List Char) (saveErr : Option (List Char)) (dev : Bool) (rec : JObj),
      (crearEntidadHandler (.parsed (.obj datos)) uuid now saveErr dev).guardado = some rec →
      getField rec "id".data = .str uuid
      ∧ getField rec "creado".data = .str now
      ∧ getField rec "actualizado".data = .str now := by
  intro datos uuid now saveErr dev rec h
  obtain ⟨san, hrec⟩ := crearEntidadHandler_guardado _ uuid now saveErr dev rec h
  subst hrec
  refine ⟨?_, ?_, ?_⟩
  · rw [getField_setField_ne _ _ _ _ (by decide), getField_setField_ne _ _ _ _ (by decide),
      getField_setField_same]
  · rw [getField_setField_ne _ _ _ _ (by decide), getField_setField_same]
  · rw [getField_setField_same]

/-- C9, witness: the theorem applied to a concrete body that supplies its own
id and creado — the stored record still carries the fresh UUID and the fresh
timestamp on all three fields. -/
theorem claim9_witness :
    getField [("nombre".data, jstr "Yoda"), ("id".data, jstr "fresh-uuid"),
        ("creado".data, jstr "2026-01-01T00:00:00.000Z"),
        ("peliculas".data, JSValue.arr []), ("especies".data, JSValue.arr []),
        ("vehiculos".data, JSValue.arr []), ("naves_espaciales".data, JSValue.arr []),
        ("actualizado".data, jstr "2026-01-01T00:00:00.000Z")] "id".data
      = jstr "fresh-uuid"
    ∧ getField [("nombre".data, jstr "Yoda"), ("id".data, jstr "fresh-uuid"),
        ("creado".data, jstr "2026-01-01T00:00:00.000Z"),
        ("peliculas".data, JSValue.arr []), ("especies".data, JSValue.arr []),
        ("vehiculos".data, JSValue.arr []), ("naves_espaciales".data, JSValue.arr []),
        ("actualizado".data, jstr "2026-01-01T00:00:00.000Z")] "creado".data
      = jstr "2026-01-01T00:00:00.000Z"
    ∧ getField [("nombre".data, jstr "Yoda"), ("id".data, jstr "fresh-uuid"),
        ("creado".data, jstr "2026-01-01T00:00:00.000Z"),
        ("peliculas".data, JSValue.arr []), ("especies".data, JSValue.arr []),
        ("vehiculos".data, JSValue.arr []), ("naves_espaciales".data, JSValue.arr []),
        ("actualizado".data, jstr "2026-01-01T00:00:00.000Z")] "actualizado".data
      = jstr "2026-01-01T00:00:00.000Z" :=
  claim9_identity_overwritten
    [("nombre".data, jstr "Yoda"), ("id".data, jstr "evil"), ("creado".data, jstr "1999")]
    "fresh-uuid".data "2026-01-01T00:00:00.000Z".data none false
    [("nombre".data, jstr "Yoda"), ("id".data, jstr "fresh-uuid"),
     ("creado".data, jstr "2026-01-01T00:00:00.000Z"),
     ("peliculas".data, JSValue.arr []), ("especies".data, JSValue.arr []),
     ("vehiculos".data, JSValue.arr []), ("naves_espaciales".data, JSValue.arr []),
     ("actualizado".data, jstr "2026-01-01T00:00:00.000Z")]
    (by rfl)

end Smrtl
